import Mathlib

/-!
Shallow embedding of the Syren Render repository: the files `common.h`,
`GraphicsAPI.h`, `DirectX.h`, `DirectX.cpp` and `Syren Render.cpp`.

Calls into the native DXGI / D3D12 driver are modelled by explicit
environment records: one Boolean or numeric field per native call records
whether that call succeeds and what it reports.  Member state of the C++
classes is modelled by explicit state records threaded through each member
function.  Output parameters passed by reference (adapter lists, output
lists, display-mode lists, the config struct) are modelled as explicit
inputs and outputs.
-/

namespace SyrenEngine

/-- The enumeration `enum class API { DIRECTX, OPENGL, VULKAN, NONE }` from common.h. -/
inductive API where
  | DIRECTX
  | OPENGL
  | VULKAN
  | NONE
deriving DecidableEq, BEq

/-- The enumeration `enum class RESULT { FAIL = 0, WSUCCESS = 1, SSUCCESS = 2 }` from common.h. -/
inductive RESULT where
  | FAIL
  | WSUCCESS
  | SSUCCESS
deriving DecidableEq, BEq

/-- The struct `FunctionResult` from common.h: a success flag, a result
grade and a message. -/
structure FunctionResult where
  is_successfull : Bool
  result : RESULT
  message : String
deriving DecidableEq

/-- The struct `GraphicsAdapter` from common.h. -/
structure GraphicsAdapter where
  index : Nat
  adapterName : String
deriving DecidableEq

/-- The struct `GraphicsOutput` from common.h. -/
structure GraphicsOutput where
  index : Nat
  outputName : String
deriving DecidableEq

/-- The struct `DisplayMode` from common.h. -/
structure DisplayMode where
  index : Nat
  resolutionWidth : Nat
  resolutionHeight : Nat
  refreshRate : Nat
deriving DecidableEq

/-- The constant `static const int SwapChainBufferCount = 2` from DirectX.h. -/
def SwapChainBufferCount : Nat := 2

/-- Member state of the `DirectX` class (DirectX.h).  COM object pointers are
modelled by Booleans recording whether the object has been created; the swap
chain additionally records the refresh rate (numerator, denominator) it was
created with.  `fenceCompleted` models the driver-side completed value of
`mFence` as observed through GetCompletedValue / fence waits. -/
structure DXState where
  mhMainWnd : Nat
  mClientWidth : Nat
  mClientHeight : Nat
  mCurrentFence : Nat
  fenceCompleted : Nat
  mCurrBackBuffer : Nat
  factory : Bool
  device : Bool
  fence : Bool
  mRtvDescriptorSize : Nat
  mDsvDescriptorSize : Nat
  mCbvSrvDescriptorSize : Nat
  commandQueue : Bool
  cmdListAlloc : Bool
  commandList : Bool
  swapChain : Option (Nat × Nat)
  rtvHeap : Bool
  dsvHeap : Bool
  swapChainBuffers : Bool
  depthStencilBuffer : Bool
  viewport : Option (Nat × Nat)
  scissor : Option (Nat × Nat)
deriving DecidableEq

/-- The constructor `DirectX::DirectX(HWND)` (DirectX.cpp lines 37-51)
together with the member initialisers in DirectX.h (`mClientWidth = 800`,
`mClientHeight = 600`, `mCurrentFence = 0`, `mCurrBackBuffer = 0`). -/
def DXState.construct (phMainWnd : Nat) : DXState :=
  { mhMainWnd := phMainWnd
    mClientWidth := 800
    mClientHeight := 600
    mCurrentFence := 0
    fenceCompleted := 0
    mCurrBackBuffer := 0
    factory := false
    device := false
    fence := false
    mRtvDescriptorSize := 0
    mDsvDescriptorSize := 0
    mCbvSrvDescriptorSize := 0
    commandQueue := false
    cmdListAlloc := false
    commandList := false
    swapChain := none
    rtvHeap := false
    dsvHeap := false
    swapChainBuffers := false
    depthStencilBuffer := false
    viewport := none
    scissor := none }

namespace DirectX

/-- Environment for one `flushCommandQueue` call: the outcome of
`mCommandQueue->Signal`, the fence progress the GPU has made by the time
`GetCompletedValue` is read, and the outcome of `SetEventOnCompletion`. -/
structure FlushEnv where
  signalOk : Bool
  gpuCompleted : Nat
  setEventOk : Bool
deriving DecidableEq

/-- Models `DirectX::flushCommandQueue` (DirectX.cpp lines 316-334): increments
`mCurrentFence`, signals the queue, and if the fence has not yet reached the
new target, registers an event and blocks until the fence completes
(`WaitForSingleObject(eventHandle, INFINITE)`), after which the completed value of the fence
equals the target. -/
def flushCommandQueue (e : FlushEnv) (st : DXState) : FunctionResult × DXState :=
  let st1 := { st with mCurrentFence := st.mCurrentFence + 1 }
  if e.signalOk then
    let completed := max st1.fenceCompleted e.gpuCompleted
    if completed < st1.mCurrentFence then
      if e.setEventOk then
        (⟨true, RESULT.SSUCCESS, "Successfully flushed the command queue."⟩,
          { st1 with fenceCompleted := st1.mCurrentFence })
      else
        (⟨false, RESULT.FAIL, "Failed to fire event on fence completion."⟩,
          { st1 with fenceCompleted := completed })
    else
      (⟨true, RESULT.SSUCCESS, "Successfully flushed the command queue."⟩,
        { st1 with fenceCompleted := completed })
  else
    (⟨false, RESULT.FAIL, "Failed to signal the command queue."⟩, st1)

/-- Environment for the fallible native calls made during
`DirectX::initialise` and its private helper steps. -/
structure InitEnv where
  createFactoryOk : Bool
  factoryErr : String
  hwDeviceOk : Bool
  warpAdapterOk : Bool
  warpDeviceOk : Bool
  createFenceOk : Bool
  rtvSize : Nat
  dsvSize : Nat
  cbvSrvSize : Nat
  queueOk : Bool
  allocOk : Bool
  listOk : Bool
  createSwapChainOk : Bool
  rtvHeapOk : Bool
  dsvHeapOk : Bool
deriving DecidableEq

/-- Models `DirectX::initialiseDXGI` (DirectX.cpp lines 83-96). -/
def initialiseDXGI (e : InitEnv) (st : DXState) : FunctionResult × DXState :=
  if e.createFactoryOk then
    (⟨true, RESULT.SSUCCESS, "DXGI initalised successfully."⟩, { st with factory := true })
  else
    (⟨false, RESULT.FAIL,
      "Could not create GXGI Factory." ++ "\n" ++ e.factoryErr⟩, st)

/-- Models `DirectX::initialiseD3D12` (DirectX.cpp lines 107-130).  The result of the
initial `getAdapter(0, adapter)` call is ignored by the source; device
creation is attempted on the preferred adapter and, failing that, on the WARP
adapter. -/
def initialiseD3D12 (e : InitEnv) (st : DXState) : FunctionResult × DXState :=
  if e.hwDeviceOk then
    (⟨true, RESULT.SSUCCESS, "Successfully created the D3D12 device."⟩,
      { st with device := true })
  else if e.warpAdapterOk then
    if e.warpDeviceOk then
      (⟨true, RESULT.SSUCCESS, "Successfully created the D3D12 device using a warp adapter."⟩,
        { st with device := true })
    else
      (⟨false, RESULT.FAIL, "Failed to create the D3D12 device."⟩, st)
  else
    (⟨false, RESULT.FAIL, "Failed to create the warp adapter."⟩, st)

/-- Models `DirectX::initialiseFence` (DirectX.cpp lines 140-146): creates the fence
with initial completed value 0. -/
def initialiseFence (e : InitEnv) (st : DXState) : FunctionResult × DXState :=
  if e.createFenceOk then
    (⟨true, RESULT.SSUCCESS, "Successfully created a fence object."⟩,
      { st with fence := true, fenceCompleted := 0 })
  else
    (⟨false, RESULT.FAIL, "Failed to create a fence object."⟩, st)

/-- Models `DirectX::cacheDescriptorSizes` (DirectX.cpp lines 154-158). -/
def cacheDescriptorSizes (e : InitEnv) (st : DXState) : DXState :=
  { st with
    mRtvDescriptorSize := e.rtvSize
    mDsvDescriptorSize := e.dsvSize
    mCbvSrvDescriptorSize := e.cbvSrvSize }

/-- Models `DirectX::initialiseCommandObjects` (DirectX.cpp lines 183-203). -/
def initialiseCommandObjects (e : InitEnv) (st : DXState) : FunctionResult × DXState :=
  if e.queueOk then
    let st1 := { st with commandQueue := true }
    if e.allocOk then
      let st2 := { st1 with cmdListAlloc := true }
      if e.listOk then
        (⟨true, RESULT.SSUCCESS, "Successfully created the primary command queue."⟩,
          { st2 with commandList := true })
      else
        (⟨false, RESULT.FAIL,
          "Failed to create the command list for the primary command queue."⟩, st2)
    else
      (⟨false, RESULT.FAIL,
        "Failed to create a command allocator for the primary command queue."⟩, st1)
  else
    (⟨false, RESULT.FAIL, "Failed to create the primary command queue."⟩, st)

/-- Models `DirectX::initialiseSwapChain` (DirectX.cpp lines 205-239): resets the
swap-chain pointer, then creates a swap chain with the given refresh rate
numerator and denominator. -/
def initialiseSwapChain (e : InitEnv) (rrNumerator rrDenominator : Nat)
    (st : DXState) : FunctionResult × DXState :=
  let st1 := { st with swapChain := none }
  if e.createSwapChainOk then
    (⟨true, RESULT.SSUCCESS, "Successfully initialised the swap chain."⟩,
      { st1 with swapChain := some (rrNumerator, rrDenominator) })
  else
    (⟨false, RESULT.FAIL,
      "Failed to create the swap chain. \n" ++
      "Resolution: " ++ toString st1.mClientWidth ++ "x" ++ toString st1.mClientHeight ++ "\n" ++
      "Refresh Rate: " ++ toString (rrNumerator / rrDenominator) ++ "\n"⟩, st1)

/-- Models `DirectX::initialiseRtvAndDsvDescriptorHeaps` (DirectX.cpp lines 241-261). -/
def initialiseRtvAndDsvDescriptorHeaps (e : InitEnv) (st : DXState) :
    FunctionResult × DXState :=
  if e.rtvHeapOk then
    let st1 := { st with rtvHeap := true }
    if e.dsvHeapOk then
      (⟨true, RESULT.SSUCCESS,
        "Successfully created the render target view and depth stencil view."⟩,
        { st1 with dsvHeap := true })
    else
      (⟨false, RESULT.FAIL, "Failed to create descriptor heap (DSV)."⟩, st1)
  else
    (⟨false, RESULT.FAIL, "Failed to create descriptor heap (RTV)."⟩, st)

/-- Models `DirectX::initialise` (DirectX.cpp lines 457-490): runs the
initialisation steps in order, accumulating their messages, returning the
result of the first failing step unchanged and otherwise a fresh overall success
result. -/
def initialise (e : InitEnv) (st : DXState) : FunctionResult × DXState :=
  let p1 := initialiseDXGI e st
  if p1.1.is_successfull then
    let p2 := initialiseD3D12 e p1.2
    if p2.1.is_successfull then
      let p3 := initialiseFence e p2.2
      if p3.1.is_successfull then
        let st4 := cacheDescriptorSizes e p3.2
        let p5 := initialiseCommandObjects e st4
        if p5.1.is_successfull then
          let p6 := initialiseSwapChain e 60 1 p5.2
          if p6.1.is_successfull then
            let p7 := initialiseRtvAndDsvDescriptorHeaps e p6.2
            if p7.1.is_successfull then
              (⟨true, RESULT.SSUCCESS,
                "Initialising DirectX. \n" ++ p1.1.message ++ "\n" ++
                p2.1.message ++ "\n" ++ p3.1.message ++ "\n" ++
                p5.1.message ++ "\n" ++ p6.1.message ++ "\n" ++
                p7.1.message ++ "\n" ++
                "Initialising DirectX was successful."⟩, p7.2)
            else p7
          else p6
        else p5
      else p3
    else p2
  else p1

/-- Environment for the fallible native calls made during `DirectX::render`. -/
structure RenderEnv where
  allocResetOk : Bool
  listResetOk : Bool
  closeOk : Bool
  presentOk : Bool
  flush : FlushEnv
deriving DecidableEq

/-- Models `DirectX::render` (DirectX.cpp lines 574-611): resets the allocator and
the command list, records, closes and executes the command list, presents
the swap chain, advances `mCurrBackBuffer` modulo `SwapChainBufferCount`,
then calls `flushCommandQueue()` discarding its result, and returns success. -/
def render (e : RenderEnv) (st : DXState) : FunctionResult × DXState :=
  if e.allocResetOk then
    if e.listResetOk then
      if e.closeOk then
        if e.presentOk then
          let st1 := { st with
            mCurrBackBuffer := (st.mCurrBackBuffer + 1) % SwapChainBufferCount }
          let p := flushCommandQueue e.flush st1
          (⟨true, RESULT.SSUCCESS, "Successfully rendered frame."⟩, p.2)
        else
          (⟨false, RESULT.FAIL, "Failed to present the swap chain."⟩, st)
      else
        (⟨false, RESULT.FAIL, "Failed to close the command list."⟩, st)
    else
      (⟨false, RESULT.FAIL, "Failed to reset the command list."⟩, st)
  else
    (⟨false, RESULT.FAIL, "Failed to reset the command list allocator."⟩, st)

/-- Environment for the fallible native calls made during `DirectX::onResize`. -/
structure ResizeEnv where
  flush1 : FlushEnv
  listResetOk : Bool
  resizeBuffersOk : Bool
  getBuffer0Ok : Bool
  getBuffer1Ok : Bool
  committedOk : Bool
  closeOk : Bool
  flush2 : FlushEnv
deriving DecidableEq

/-- Models `DirectX::onResize` (DirectX.cpp lines 492-572): flushes the queue,
resets the command list, releases and resizes the swap-chain buffers,
resets `mCurrBackBuffer` to 0, rebuilds render-target views and the
depth/stencil buffer, closes and executes the command list, flushes again
and finally sets the viewport and scissor rectangle. -/
def onResize (e : ResizeEnv) (st : DXState) : FunctionResult × DXState :=
  let p1 := flushCommandQueue e.flush1 st
  if p1.1.is_successfull then
    if e.listResetOk then
      let st2 := { p1.2 with swapChainBuffers := false, depthStencilBuffer := false }
      if e.resizeBuffersOk then
        let st3 := { st2 with mCurrBackBuffer := 0 }
        if e.getBuffer0Ok then
          if e.getBuffer1Ok then
            let st4 := { st3 with swapChainBuffers := true }
            if e.committedOk then
              let st5 := { st4 with depthStencilBuffer := true }
              if e.closeOk then
                let p2 := flushCommandQueue e.flush2 st5
                if p2.1.is_successfull then
                  (⟨true, RESULT.SSUCCESS, "Succseeful."⟩,
                    { p2.2 with
                      viewport := some (p2.2.mClientWidth, p2.2.mClientHeight)
                      scissor := some (p2.2.mClientWidth, p2.2.mClientHeight) })
                else p2
              else
                (⟨false, RESULT.FAIL, "Failed to close the command list."⟩, st5)
            else
              (⟨false, RESULT.FAIL, "Failed to create a commited resource."⟩, st4)
          else
            (⟨false, RESULT.FAIL, "Failed to get a buffer from the swap chain."⟩, st3)
        else
          (⟨false, RESULT.FAIL, "Failed to get a buffer from the swap chain."⟩, st3)
      else
        (⟨false, RESULT.FAIL, "Failed to resize swap chain buffers."⟩, st2)
    else
      (⟨false, RESULT.FAIL, "Failed to reset command list."⟩, p1.2)
  else p1

/-- Models `DirectX::update` (DirectX.cpp lines 613-615). -/
def update : FunctionResult :=
  ⟨true, RESULT.SSUCCESS, "Succseeful."⟩

/-- Models `DirectX::destroy` (DirectX.cpp lines 617-619). -/
def destroy : FunctionResult :=
  ⟨true, RESULT.SSUCCESS, "Succseeful."⟩

/-- Environment for `DirectX::checkMultisampling`. -/
structure MsaaEnv where
  featureOk : Bool
  numQualityLevels : Nat
deriving DecidableEq

/-- Models `DirectX::checkMultisampling` (DirectX.cpp lines 168-181).  It reads the
quality levels into a local and never writes any member. -/
def checkMultisampling (e : MsaaEnv) : FunctionResult :=
  if e.featureOk then
    if e.numQualityLevels = 0 then
      ⟨false, RESULT.FAIL, "Unexpected MSAA quality level."⟩
    else
      ⟨true, RESULT.SSUCCESS, "4X MSAA Supported."⟩
  else
    ⟨false, RESULT.FAIL, "Feature check for 4X MSAA support failed."⟩

/-- Environment for adapter enumeration in `DirectX::getAdapters`: the
descriptions of the adapters the factory enumerates, in order. -/
structure AdaptersEnv where
  names : List String
deriving DecidableEq

/-- Models `DirectX::getAdapters` (DirectX.cpp lines 363-379): appends one entry per
enumerated adapter to the list of the caller and returns success. -/
def getAdapters (e : AdaptersEnv) (adapters : List GraphicsAdapter) :
    FunctionResult × List GraphicsAdapter :=
  (⟨true, RESULT.SSUCCESS, "Adapters returned."⟩,
    adapters ++ e.names.enum.map fun p => ⟨p.1, p.2⟩)

/-- Environment for `DirectX::getOutputs`: how many adapters the factory
enumerates (for the ignored `getAdapter` call) and the descriptions of the
outputs enumerated on the selected adapter. -/
structure OutputsEnv where
  adapterCount : Nat
  outputNames : List String
deriving DecidableEq

/-- Models `DirectX::getOutputs` (DirectX.cpp lines 392-411): looks up the adapter
(ignoring the result of that lookup), appends one entry per enumerated output to
the list of the caller and returns success. -/
def getOutputs (e : OutputsEnv) (index : Nat) (outputs : List GraphicsOutput) :
    FunctionResult × List GraphicsOutput :=
  (⟨true, RESULT.SSUCCESS, "Output devices returned."⟩,
    outputs ++ e.outputNames.enum.map fun p => ⟨p.1, p.2⟩)

/-- Environment for `DirectX::getAdapter` / `getOutput` /
`getDisplayModes`: the number of adapters the factory enumerates, the number
of outputs the selected adapter enumerates, and the display modes reported
for the selected output as (width, height, refresh-rate numerator,
refresh-rate denominator). -/
structure ModesEnv where
  adapterCount : Nat
  outputCount : Nat
  modes : List (Nat × Nat × Nat × Nat)
deriving DecidableEq

/-- Models `DirectX::getAdapter` (DirectX.cpp lines 275-284):
`EnumAdapterByGpuPreference` finds the adapter exactly when the index is
within the enumerated range. -/
def getAdapter (e : ModesEnv) (adapterIndex : Nat) : FunctionResult :=
  if adapterIndex < e.adapterCount then
    ⟨true, RESULT.SSUCCESS, "Adapter returned."⟩
  else
    ⟨false, RESULT.FAIL,
      "Could not find adapter at index position " ++ toString adapterIndex ++ "."⟩

/-- Models `DirectX::getOutput` (DirectX.cpp lines 297-314): propagates an adapter
lookup failure, otherwise `EnumOutputs` finds the output exactly when the
index is within range. -/
def getOutput (e : ModesEnv) (pAdapterIndex pOutputIndex : Nat) : FunctionResult :=
  let r := getAdapter e pAdapterIndex
  if r.is_successfull then
    if pOutputIndex < e.outputCount then
      ⟨true, RESULT.SSUCCESS, "Output device returned."⟩
    else
      ⟨false, RESULT.FAIL,
        "Could not find output device at index position " ++ toString pOutputIndex ++ "."⟩
  else r

/-- Models `DirectX::getDisplayModes` (DirectX.cpp lines 425-447): returns the
failure of the output lookup unchanged without touching the list of the caller;
otherwise appends one entry per reported mode, with refresh rate computed by
integer division of numerator by denominator. -/
def getDisplayModes (e : ModesEnv) (pAdapterIndex pOutputIndex : Nat)
    (pDisplayModes : List DisplayMode) : FunctionResult × List DisplayMode :=
  let r := getOutput e pAdapterIndex pOutputIndex
  if r.is_successfull then
    (⟨true, RESULT.SSUCCESS, "Display modes returned."⟩,
      pDisplayModes ++ e.modes.enum.map fun p =>
        ⟨p.1, p.2.1, p.2.2.1, p.2.2.2.1 / p.2.2.2.2⟩)
  else (r, pDisplayModes)

end DirectX

/-! Config-file parsing used by `SyrenRender::loadConfig`.  A line of the
file is a list of characters; the helpers below model the `std::string`
operations the source uses: substring containment for `line.find("api")`,
the substring after the first `':'` for `line.substr(line.find(":") + 1)`
(when there is no `':'`, `find` yields `npos` and `npos + 1` wraps to `0`,
so the whole line is taken), and whitespace-delimited token extraction for
`sin >> api_check`. -/

/-- Whitespace as recognised by `std::istream` extraction. -/
def isSpaceChar (c : Char) : Bool :=
  c == ' ' || c == '\t' || c == '\n' || c == '\r' || c == '\x0b' || c == '\x0c'

/-- Whether the first list is an initial segment of the second. -/
def listHasPre : List Char → List Char → Bool
  | [], _ => true
  | _ :: _, [] => false
  | a :: as, b :: bs => a == b && listHasPre as bs

/-- Whether the first list occurs contiguously inside the second, as
`std::string::find` reports. -/
def listHasSub (nd : List Char) : List Char → Bool
  | [] => nd.isEmpty
  | c :: t => listHasPre nd (c :: t) || listHasSub nd t

/-- Characters strictly after the first `':'`. -/
def dropThroughColon : List Char → List Char
  | [] => []
  | c :: t => if c == ':' then t else dropThroughColon t

/-- Models `line.substr(line.find(":") + 1)`: the substring after the first `':'`,
or the whole line when it has no `':'`. -/
def substrAfterColon (l : List Char) : List Char :=
  if l.contains ':' then dropThroughColon l else l

/-- The first whitespace-delimited token, as `std::istream` extraction
reads it (empty when the input holds no token). -/
def firstToken (l : List Char) : List Char :=
  (l.dropWhile isSpaceChar).takeWhile fun c => !isSpaceChar c

/-- The enumerator a recognised api token maps to, `none` otherwise. -/
def tokenAPI (tok : List Char) : Option API :=
  if tok = "directx".toList then some API.DIRECTX
  else if tok = "opengl".toList then some API.OPENGL
  else if tok = "vulkan".toList then some API.VULKAN
  else none

/-- Whether `line.find("api")` succeeds on this line. -/
def lineIsApi (l : List Char) : Bool :=
  listHasSub "api".toList l

/-- The api enumerator carried by the value on this line, when recognised. -/
def lineApi (l : List Char) : Option API :=
  tokenAPI (firstToken (substrAfterColon l))

namespace SyrenRender

/-- The line-processing loop of `SyrenRender::loadConfig`
(Syren Render.cpp lines 76-100) followed by the final classification:
`config.GraphicsAPI` is updated by each recognised api line, an
unrecognised api value aborts with a FAIL, and after the loop the result is
WSUCCESS when `config.GraphicsAPI` is still NONE and SSUCCESS otherwise. -/
def processLines (config : API) : List (List Char) → FunctionResult × API
  | [] =>
    if config = API.NONE then
      (⟨true, RESULT.WSUCCESS, "missing graphics API entry in render.config."⟩, config)
    else
      (⟨true, RESULT.SSUCCESS, "config file loaded successfully."⟩, config)
  | l :: rest =>
    if lineIsApi l then
      match lineApi l with
      | some a => processLines a rest
      | none =>
        (⟨false, RESULT.FAIL, "invalid graphics API entry in render.config."⟩, config)
    else processLines config rest

/-- Models `SyrenRender::loadConfig` (Syren Render.cpp lines 73-107): `opened`
records whether `render.cfg` could be opened, `openErr` the stream/errno
details appended to the failure message, `ls` the lines of the file and
`config` the incoming `config.GraphicsAPI`.  Returns the result together
with the final `config.GraphicsAPI`. -/
def loadConfig (opened : Bool) (openErr : String) (ls : List (List Char))
    (config : API) : FunctionResult × API :=
  if opened then processLines config ls
  else (⟨false, RESULT.FAIL, "Error opening file: render.cfg" ++ openErr⟩, config)

end SyrenRender

/-- The only backend that exists: a `DirectX` instance holding its window
handle and member state (`select_api` in Syren Render.cpp constructs one
regardless of the requested API). -/
inductive Backend where
  | directx (hwnd : Nat) (st : DXState)
deriving DecidableEq

/-- Virtual dispatch of `initialise` to the backend. -/
def Backend.initialise (e : DirectX.InitEnv) : Backend → FunctionResult × Backend
  | .directx h s =>
    let p := DirectX.initialise e s
    (p.1, .directx h p.2)

/-- Virtual dispatch of `render` to the backend. -/
def Backend.render (e : DirectX.RenderEnv) : Backend → FunctionResult × Backend
  | .directx h s =>
    let p := DirectX.render e s
    (p.1, .directx h p.2)

/-- Virtual dispatch of `onResize` to the backend. -/
def Backend.onResize (e : DirectX.ResizeEnv) : Backend → FunctionResult × Backend
  | .directx h s =>
    let p := DirectX.onResize e s
    (p.1, .directx h p.2)

/-- Member state of the `SyrenRender` class (Syren Render.h). -/
structure SRState where
  m_is_initialised : Bool
  m_config : API
  m_API : Option Backend
deriving DecidableEq

/-- The `SyrenRender()` constructor (Syren Render.cpp lines 8-11). -/
def SRState.construct : SRState :=
  { m_is_initialised := false, m_config := API.NONE, m_API := none }

namespace SyrenRender

/-- Models `SyrenRender::isInitialised` (Syren Render.cpp lines 14-16). -/
def isInitialised (st : SRState) : Bool :=
  st.m_is_initialised

/-- Models `SyrenRender::select_api` (Syren Render.cpp lines 48-50): ignores the
requested API and always constructs a DirectX backend. -/
def select_api (p_api : API) (phMainWnd : Nat) : Backend :=
  Backend.directx phMainWnd (DXState.construct phMainWnd)

/-- Models `SyrenRender::initialise` (Syren Render.cpp lines 18-35): loads the
config; when that yields a strong success it selects the configured backend
and initialises it, otherwise it falls back to hard-coding DIRECTX; on every
path it sets `m_is_initialised = TRUE` and returns the
initialisation result of the backend. -/
def initialise (opened : Bool) (openErr : String) (ls : List (List Char))
    (e : DirectX.InitEnv) (phMainWnd : Nat) (st : SRState) :
    FunctionResult × SRState :=
  let p := loadConfig opened openErr ls st.m_config
  if p.1.is_successfull && (p.1.result == RESULT.SSUCCESS) then
    let b := select_api p.2 phMainWnd
    let q := Backend.initialise e b
    (q.1, { m_is_initialised := true, m_config := p.2, m_API := some q.2 })
  else
    let b := select_api API.DIRECTX phMainWnd
    let q := Backend.initialise e b
    (q.1, { m_is_initialised := true, m_config := API.DIRECTX, m_API := some q.2 })

/-- Models `SyrenRender::onResize` (Syren Render.cpp lines 37-42), on the
dereferenced backend: propagates a failure, otherwise returns a fresh
success result. -/
def onResize (e : DirectX.ResizeEnv) (b : Backend) : FunctionResult × Backend :=
  let q := Backend.onResize e b
  if q.1.is_successfull then
    (⟨true, RESULT.SSUCCESS, "Successfully resized window."⟩, q.2)
  else q

/-- Models `SyrenRender::draw` (Syren Render.cpp lines 44-46), on the dereferenced
backend. -/
def draw (e : DirectX.RenderEnv) (b : Backend) : FunctionResult × Backend :=
  Backend.render e b

/-- Models `SyrenRender::getAdapters` (Syren Render.cpp lines 52-57). -/
def getAdapters (e : DirectX.AdaptersEnv) (st : SRState)
    (adapters : List GraphicsAdapter) : FunctionResult × List GraphicsAdapter :=
  if st.m_is_initialised then DirectX.getAdapters e adapters
  else (⟨false, RESULT.FAIL, "Graphics API has not been initialised."⟩, adapters)

/-- Models `SyrenRender::getOutputs` (Syren Render.cpp lines 59-64). -/
def getOutputs (e : DirectX.OutputsEnv) (index : Nat) (st : SRState)
    (outputs : List GraphicsOutput) : FunctionResult × List GraphicsOutput :=
  if st.m_is_initialised then DirectX.getOutputs e index outputs
  else (⟨false, RESULT.FAIL, "Graphics API has not been initialised."⟩, outputs)

/-- Models `SyrenRender::getDisplayModes` (Syren Render.cpp lines 66-71). -/
def getDisplayModes (e : DirectX.ModesEnv) (adapterIndex OutputIndex : Nat)
    (st : SRState) (displayModes : List DisplayMode) :
    FunctionResult × List DisplayMode :=
  if st.m_is_initialised then
    DirectX.getDisplayModes e adapterIndex OutputIndex displayModes
  else (⟨false, RESULT.FAIL, "Graphics API has not been initialised."⟩, displayModes)

end SyrenRender

/-- One operation on a `DirectX` instance, with its environment.  Used to
state invariants over arbitrary sequences of operations. -/
inductive DXOp where
  | init (e : DirectX.InitEnv)
  | resize (e : DirectX.ResizeEnv)
  | renderOp (e : DirectX.RenderEnv)
  | updateOp
  | destroyOp
  | flushOp (e : DirectX.FlushEnv)
  | checkMsaa (e : DirectX.MsaaEnv)
  | cacheSizes (e : DirectX.InitEnv)
  | adaptersOp (e : DirectX.AdaptersEnv) (adapters : List GraphicsAdapter)
  | outputsOp (e : DirectX.OutputsEnv) (index : Nat) (outputs : List GraphicsOutput)
  | modesOp (e : DirectX.ModesEnv) (a o : Nat) (modes : List DisplayMode)

/-- Run one operation on the instance state, returning the result it
produced and the updated member state. -/
def DXOp.run : DXOp → DXState → FunctionResult × DXState
  | .init e, st => DirectX.initialise e st
  | .resize e, st => DirectX.onResize e st
  | .renderOp e, st => DirectX.render e st
  | .updateOp, st => (DirectX.update, st)
  | .destroyOp, st => (DirectX.destroy, st)
  | .flushOp e, st => DirectX.flushCommandQueue e st
  | .checkMsaa e, st => (DirectX.checkMultisampling e, st)
  | .cacheSizes e, st => (⟨true, RESULT.SSUCCESS, ""⟩, DirectX.cacheDescriptorSizes e st)
  | .adaptersOp e ad, st => ((DirectX.getAdapters e ad).1, st)
  | .outputsOp e i outs, st => ((DirectX.getOutputs e i outs).1, st)
  | .modesOp e a o ms, st => ((DirectX.getDisplayModes e a o ms).1, st)

/-- The member state after running a sequence of operations. -/
def runOps (ops : List DXOp) (st : DXState) : DXState :=
  ops.foldl (fun s op => (op.run s).2) st

/-- The pairing discipline every FunctionResult the library constructs
follows: the Boolean flag is true exactly when the result grade is not
FAIL. -/
def FunctionResultOk (r : FunctionResult) : Bool :=
  r.is_successfull == decide (r.result ≠ RESULT.FAIL)

/-- The api enumerator left in the config after folding the api lines of
the file over an initial value; used to state which enumerator
`SyrenRender::loadConfig` leaves behind when no line aborts the loop. -/
def lastApi (config : API) : List (List Char) → API
  | [] => config
  | l :: rest =>
    if lineIsApi l then lastApi ((lineApi l).getD config) rest
    else lastApi config rest

/-! Helper lemmas characterising each DirectX member function: its success
flag as a function of the environment, and how it treats the fence counter
and the back-buffer index. -/

namespace DirectX

theorem initialiseDXGI_succ (e : InitEnv) (st : DXState) :
    (initialiseDXGI e st).1.is_successfull = e.createFactoryOk := by
  cases h : e.createFactoryOk <;> simp [initialiseDXGI, h]

theorem initialiseD3D12_succ (e : InitEnv) (st : DXState) :
    (initialiseD3D12 e st).1.is_successfull =
      (e.hwDeviceOk || (e.warpAdapterOk && e.warpDeviceOk)) := by
  cases h1 : e.hwDeviceOk <;> cases h2 : e.warpAdapterOk <;>
    cases h3 : e.warpDeviceOk <;> simp [initialiseD3D12, h1, h2, h3]

theorem initialiseFence_succ (e : InitEnv) (st : DXState) :
    (initialiseFence e st).1.is_successfull = e.createFenceOk := by
  cases h : e.createFenceOk <;> simp [initialiseFence, h]

theorem initialiseCommandObjects_succ (e : InitEnv) (st : DXState) :
    (initialiseCommandObjects e st).1.is_successfull =
      (e.queueOk && e.allocOk && e.listOk) := by
  cases h1 : e.queueOk <;> cases h2 : e.allocOk <;> cases h3 : e.listOk <;>
    simp [initialiseCommandObjects, h1, h2, h3]

theorem initialiseSwapChain_succ (e : InitEnv) (n d : Nat) (st : DXState) :
    (initialiseSwapChain e n d st).1.is_successfull = e.createSwapChainOk := by
  cases h : e.createSwapChainOk <;> simp [initialiseSwapChain, h]

theorem initialiseRtvAndDsvDescriptorHeaps_succ (e : InitEnv) (st : DXState) :
    (initialiseRtvAndDsvDescriptorHeaps e st).1.is_successfull =
      (e.rtvHeapOk && e.dsvHeapOk) := by
  cases h1 : e.rtvHeapOk <;> cases h2 : e.dsvHeapOk <;>
    simp [initialiseRtvAndDsvDescriptorHeaps, h1, h2]

@[simp] theorem initialiseDXGI_fence (e : InitEnv) (st : DXState) :
    (initialiseDXGI e st).2.mCurrentFence = st.mCurrentFence := by
  cases h : e.createFactoryOk <;> simp [initialiseDXGI, h]

@[simp] theorem initialiseDXGI_backbuffer (e : InitEnv) (st : DXState) :
    (initialiseDXGI e st).2.mCurrBackBuffer = st.mCurrBackBuffer := by
  cases h : e.createFactoryOk <;> simp [initialiseDXGI, h]

@[simp] theorem initialiseD3D12_fence (e : InitEnv) (st : DXState) :
    (initialiseD3D12 e st).2.mCurrentFence = st.mCurrentFence := by
  cases h1 : e.hwDeviceOk <;> cases h2 : e.warpAdapterOk <;>
    cases h3 : e.warpDeviceOk <;> simp [initialiseD3D12, h1, h2, h3]

@[simp] theorem initialiseD3D12_backbuffer (e : InitEnv) (st : DXState) :
    (initialiseD3D12 e st).2.mCurrBackBuffer = st.mCurrBackBuffer := by
  cases h1 : e.hwDeviceOk <;> cases h2 : e.warpAdapterOk <;>
    cases h3 : e.warpDeviceOk <;> simp [initialiseD3D12, h1, h2, h3]

@[simp] theorem initialiseFence_fence (e : InitEnv) (st : DXState) :
    (initialiseFence e st).2.mCurrentFence = st.mCurrentFence := by
  cases h : e.createFenceOk <;> simp [initialiseFence, h]

@[simp] theorem initialiseFence_backbuffer (e : InitEnv) (st : DXState) :
    (initialiseFence e st).2.mCurrBackBuffer = st.mCurrBackBuffer := by
  cases h : e.createFenceOk <;> simp [initialiseFence, h]

@[simp] theorem cacheDescriptorSizes_fence (e : InitEnv) (st : DXState) :
    (cacheDescriptorSizes e st).mCurrentFence = st.mCurrentFence := rfl

@[simp] theorem cacheDescriptorSizes_backbuffer (e : InitEnv) (st : DXState) :
    (cacheDescriptorSizes e st).mCurrBackBuffer = st.mCurrBackBuffer := rfl

@[simp] theorem initialiseCommandObjects_fence (e : InitEnv) (st : DXState) :
    (initialiseCommandObjects e st).2.mCurrentFence = st.mCurrentFence := by
  cases h1 : e.queueOk <;> cases h2 : e.allocOk <;> cases h3 : e.listOk <;>
    simp [initialiseCommandObjects, h1, h2, h3]

@[simp] theorem initialiseCommandObjects_backbuffer (e : InitEnv) (st : DXState) :
    (initialiseCommandObjects e st).2.mCurrBackBuffer = st.mCurrBackBuffer := by
  cases h1 : e.queueOk <;> cases h2 : e.allocOk <;> cases h3 : e.listOk <;>
    simp [initialiseCommandObjects, h1, h2, h3]

@[simp] theorem initialiseSwapChain_fence (e : InitEnv) (n d : Nat) (st : DXState) :
    (initialiseSwapChain e n d st).2.mCurrentFence = st.mCurrentFence := by
  cases h : e.createSwapChainOk <;> simp [initialiseSwapChain, h]

@[simp] theorem initialiseSwapChain_backbuffer (e : InitEnv) (n d : Nat) (st : DXState) :
    (initialiseSwapChain e n d st).2.mCurrBackBuffer = st.mCurrBackBuffer := by
  cases h : e.createSwapChainOk <;> simp [initialiseSwapChain, h]

@[simp] theorem initialiseRtvAndDsvDescriptorHeaps_fence (e : InitEnv) (st : DXState) :
    (initialiseRtvAndDsvDescriptorHeaps e st).2.mCurrentFence = st.mCurrentFence := by
  cases h1 : e.rtvHeapOk <;> cases h2 : e.dsvHeapOk <;>
    simp [initialiseRtvAndDsvDescriptorHeaps, h1, h2]

@[simp] theorem initialiseRtvAndDsvDescriptorHeaps_backbuffer (e : InitEnv) (st : DXState) :
    (initialiseRtvAndDsvDescriptorHeaps e st).2.mCurrBackBuffer = st.mCurrBackBuffer := by
  cases h1 : e.rtvHeapOk <;> cases h2 : e.dsvHeapOk <;>
    simp [initialiseRtvAndDsvDescriptorHeaps, h1, h2]

theorem initialise_fence_pres (e : InitEnv) (st : DXState) :
    (initialise e st).2.mCurrentFence = st.mCurrentFence := by
  simp only [initialise]
  split_ifs <;> simp

theorem initialise_backbuffer_pres (e : InitEnv) (st : DXState) :
    (initialise e st).2.mCurrBackBuffer = st.mCurrBackBuffer := by
  simp only [initialise]
  split_ifs <;> simp

@[simp] theorem flushCommandQueue_fence (e : FlushEnv) (st : DXState) :
    (flushCommandQueue e st).2.mCurrentFence = st.mCurrentFence + 1 := by
  simp only [flushCommandQueue]
  split_ifs <;> rfl

@[simp] theorem flushCommandQueue_backbuffer (e : FlushEnv) (st : DXState) :
    (flushCommandQueue e st).2.mCurrBackBuffer = st.mCurrBackBuffer := by
  simp only [flushCommandQueue]
  split_ifs <;> rfl

theorem flushCommandQueue_succ_reached (e : FlushEnv) (st : DXState) :
    (flushCommandQueue e st).1.is_successfull = true →
      (flushCommandQueue e st).2.mCurrentFence ≤
        (flushCommandQueue e st).2.fenceCompleted := by
  simp only [flushCommandQueue]
  split_ifs with h1 h2 h3 <;> intro h <;> simp_all <;> omega

theorem render_succ_iff (e : RenderEnv) (st : DXState) :
    (render e st).1.is_successfull =
      (e.allocResetOk && e.listResetOk && e.closeOk && e.presentOk) := by
  cases h1 : e.allocResetOk <;> cases h2 : e.listResetOk <;>
    cases h3 : e.closeOk <;> cases h4 : e.presentOk <;>
    simp [render, h1, h2, h3, h4]

theorem render_fence_mono (e : RenderEnv) (st : DXState) :
    st.mCurrentFence ≤ (render e st).2.mCurrentFence := by
  cases h1 : e.allocResetOk <;> cases h2 : e.listResetOk <;>
    cases h3 : e.closeOk <;> cases h4 : e.presentOk <;>
    simp [render, h1, h2, h3, h4]

theorem render_succ_backbuffer (e : RenderEnv) (st : DXState) :
    (render e st).1.is_successfull = true →
      (render e st).2.mCurrBackBuffer =
        (st.mCurrBackBuffer + 1) % SwapChainBufferCount := by
  cases h1 : e.allocResetOk <;> cases h2 : e.listResetOk <;>
    cases h3 : e.closeOk <;> cases h4 : e.presentOk <;>
    simp [render, h1, h2, h3, h4]

theorem render_backbuffer_lt (e : RenderEnv) (st : DXState)
    (h : st.mCurrBackBuffer < SwapChainBufferCount) :
    (render e st).2.mCurrBackBuffer < SwapChainBufferCount := by
  cases h1 : e.allocResetOk <;> cases h2 : e.listResetOk <;>
    cases h3 : e.closeOk <;> cases h4 : e.presentOk <;>
    simp_all [render, SwapChainBufferCount] <;> omega

theorem onResize_fence_mono (e : ResizeEnv) (st : DXState) :
    st.mCurrentFence ≤ (onResize e st).2.mCurrentFence := by
  simp only [onResize]
  split_ifs <;> simp <;> omega

theorem onResize_succ_backbuffer (e : ResizeEnv) (st : DXState) :
    (onResize e st).1.is_successfull = true →
      (onResize e st).2.mCurrBackBuffer = 0 := by
  simp only [onResize]
  split_ifs <;> intro h <;> simp_all

theorem onResize_backbuffer_lt (e : ResizeEnv) (st : DXState)
    (h : st.mCurrBackBuffer < SwapChainBufferCount) :
    (onResize e st).2.mCurrBackBuffer < SwapChainBufferCount := by
  simp only [onResize]
  split_ifs <;> simp_all [SwapChainBufferCount]

end DirectX

theorem DXOp.run_fence_mono (op : DXOp) (st : DXState) :
    st.mCurrentFence ≤ (op.run st).2.mCurrentFence := by
  cases op with
  | init e => simp [DXOp.run, DirectX.initialise_fence_pres]
  | resize e => exact DirectX.onResize_fence_mono e st
  | renderOp e => exact DirectX.render_fence_mono e st
  | flushOp e => simp [DXOp.run]
  | updateOp => simp [DXOp.run]
  | destroyOp => simp [DXOp.run]
  | checkMsaa e => simp [DXOp.run]
  | cacheSizes e => simp [DXOp.run]
  | adaptersOp e ad => simp [DXOp.run]
  | outputsOp e i o => simp [DXOp.run]
  | modesOp e a o ms => simp [DXOp.run]

theorem runOps_fence_mono (ops : List DXOp) (st : DXState) :
    st.mCurrentFence ≤ (runOps ops st).mCurrentFence := by
  induction ops generalizing st with
  | nil => exact le_refl _
  | cons op t ih =>
    exact le_trans (DXOp.run_fence_mono op st) (ih (op.run st).2)

theorem DXOp.run_backbuffer_lt (op : DXOp) (st : DXState)
    (h : st.mCurrBackBuffer < SwapChainBufferCount) :
    (op.run st).2.mCurrBackBuffer < SwapChainBufferCount := by
  cases op with
  | init e => simpa [DXOp.run, DirectX.initialise_backbuffer_pres] using h
  | resize e => exact DirectX.onResize_backbuffer_lt e st h
  | renderOp e => exact DirectX.render_backbuffer_lt e st h
  | flushOp e => simpa [DXOp.run] using h
  | updateOp => exact h
  | destroyOp => exact h
  | checkMsaa e => exact h
  | cacheSizes e => simpa [DXOp.run] using h
  | adaptersOp e ad => exact h
  | outputsOp e i o => exact h
  | modesOp e a o ms => exact h

theorem runOps_backbuffer_lt (ops : List DXOp) (st : DXState)
    (h : st.mCurrBackBuffer < SwapChainBufferCount) :
    (runOps ops st).mCurrBackBuffer < SwapChainBufferCount := by
  induction ops generalizing st with
  | nil => exact h
  | cons op t ih => exact ih (op.run st).2 (DXOp.run_backbuffer_lt op st h)

/-! Lemmas showing every constructed FunctionResult pairs its Boolean flag
with its result grade. -/

namespace DirectX

theorem resOk_initialiseDXGI (e : InitEnv) (st : DXState) :
    FunctionResultOk (initialiseDXGI e st).1 = true := by
  cases h : e.createFactoryOk <;> simp [initialiseDXGI, h] <;> rfl

theorem resOk_initialiseD3D12 (e : InitEnv) (st : DXState) :
    FunctionResultOk (initialiseD3D12 e st).1 = true := by
  cases h1 : e.hwDeviceOk <;> cases h2 : e.warpAdapterOk <;>
    cases h3 : e.warpDeviceOk <;> simp [initialiseD3D12, h1, h2, h3] <;> rfl

theorem resOk_initialiseFence (e : InitEnv) (st : DXState) :
    FunctionResultOk (initialiseFence e st).1 = true := by
  cases h : e.createFenceOk <;> simp [initialiseFence, h] <;> rfl

theorem resOk_initialiseCommandObjects (e : InitEnv) (st : DXState) :
    FunctionResultOk (initialiseCommandObjects e st).1 = true := by
  cases h1 : e.queueOk <;> cases h2 : e.allocOk <;> cases h3 : e.listOk <;>
    simp [initialiseCommandObjects, h1, h2, h3] <;> rfl

theorem resOk_initialiseSwapChain (e : InitEnv) (n d : Nat) (st : DXState) :
    FunctionResultOk (initialiseSwapChain e n d st).1 = true := by
  cases h : e.createSwapChainOk <;> simp [initialiseSwapChain, h] <;> rfl

theorem resOk_initialiseRtvAndDsvDescriptorHeaps (e : InitEnv) (st : DXState) :
    FunctionResultOk (initialiseRtvAndDsvDescriptorHeaps e st).1 = true := by
  cases h1 : e.rtvHeapOk <;> cases h2 : e.dsvHeapOk <;>
    simp [initialiseRtvAndDsvDescriptorHeaps, h1, h2] <;> rfl

theorem resOk_initialise (e : InitEnv) (st : DXState) :
    FunctionResultOk (initialise e st).1 = true := by
  simp only [initialise]
  split_ifs <;>
    first
      | rfl
      | exact resOk_initialiseDXGI e _
      | exact resOk_initialiseD3D12 e _
      | exact resOk_initialiseFence e _
      | exact resOk_initialiseCommandObjects e _
      | exact resOk_initialiseSwapChain e 60 1 _
      | exact resOk_initialiseRtvAndDsvDescriptorHeaps e _

theorem resOk_flushCommandQueue (e : FlushEnv) (st : DXState) :
    FunctionResultOk (flushCommandQueue e st).1 = true := by
  simp only [flushCommandQueue]
  split_ifs <;> rfl

theorem resOk_render (e : RenderEnv) (st : DXState) :
    FunctionResultOk (render e st).1 = true := by
  cases h1 : e.allocResetOk <;> cases h2 : e.listResetOk <;>
    cases h3 : e.closeOk <;> cases h4 : e.presentOk <;>
    simp [render, h1, h2, h3, h4] <;> rfl

theorem resOk_onResize (e : ResizeEnv) (st : DXState) :
    FunctionResultOk (onResize e st).1 = true := by
  simp only [onResize]
  split_ifs <;>
    first
      | rfl
      | exact resOk_flushCommandQueue e.flush1 _
      | exact resOk_flushCommandQueue e.flush2 _

theorem resOk_checkMultisampling (e : MsaaEnv) :
    FunctionResultOk (checkMultisampling e) = true := by
  simp only [checkMultisampling]
  split_ifs <;> rfl

theorem resOk_getAdapter (e : ModesEnv) (i : Nat) :
    FunctionResultOk (getAdapter e i) = true := by
  simp only [getAdapter]
  split_ifs <;> rfl

theorem resOk_getOutput (e : ModesEnv) (a o : Nat) :
    FunctionResultOk (getOutput e a o) = true := by
  simp only [getOutput]
  split_ifs <;> first | rfl | exact resOk_getAdapter e a

theorem resOk_getDisplayModes (e : ModesEnv) (a o : Nat) (ms : List DisplayMode) :
    FunctionResultOk (getDisplayModes e a o ms).1 = true := by
  simp only [getDisplayModes]
  split_ifs <;> first | rfl | exact resOk_getOutput e a o

end DirectX

namespace SyrenRender

theorem resOk_processLines (ls : List (List Char)) (config : API) :
    FunctionResultOk (processLines config ls).1 = true := by
  induction ls generalizing config with
  | nil =>
    by_cases h : config = API.NONE <;> simp [processLines, h] <;> rfl
  | cons l t ih =>
    by_cases h1 : lineIsApi l = true
    · cases h2 : lineApi l <;> simp [processLines, h1, h2] <;>
        first | rfl | exact ih _
    · simp only [processLines]
      rw [if_neg (by simp [h1])]
      exact ih _

theorem resOk_loadConfig (opened : Bool) (err : String) (ls : List (List Char))
    (config : API) : FunctionResultOk (loadConfig opened err ls config).1 = true := by
  cases opened <;> simp [loadConfig] <;>
    first | rfl | exact resOk_processLines ls config

theorem sr_resOk_initialise (opened : Bool) (err : String) (ls : List (List Char))
    (e : DirectX.InitEnv) (hwnd : Nat) (st : SRState) :
    FunctionResultOk (initialise opened err ls e hwnd st).1 = true := by
  simp only [initialise, select_api, Backend.initialise]
  split_ifs <;> exact DirectX.resOk_initialise e _

theorem sr_resOk_onResize (e : DirectX.ResizeEnv) (b : Backend) :
    FunctionResultOk (onResize e b).1 = true := by
  cases b with
  | directx h s =>
    simp only [onResize, Backend.onResize]
    split_ifs <;> first | rfl | exact DirectX.resOk_onResize e s

theorem resOk_draw (e : DirectX.RenderEnv) (b : Backend) :
    FunctionResultOk (draw e b).1 = true := by
  cases b with
  | directx h s => exact DirectX.resOk_render e s

theorem resOk_getAdapters (e : DirectX.AdaptersEnv) (st : SRState)
    (adapters : List GraphicsAdapter) :
    FunctionResultOk (getAdapters e st adapters).1 = true := by
  simp only [getAdapters]
  split_ifs <;> rfl

theorem resOk_getOutputs (e : DirectX.OutputsEnv) (i : Nat) (st : SRState)
    (outputs : List GraphicsOutput) :
    FunctionResultOk (getOutputs e i st outputs).1 = true := by
  simp only [getOutputs]
  split_ifs <;> rfl

theorem sr_resOk_getDisplayModes (e : DirectX.ModesEnv) (a o : Nat) (st : SRState)
    (ms : List DisplayMode) :
    FunctionResultOk (getDisplayModes e a o st ms).1 = true := by
  simp only [getDisplayModes]
  split_ifs <;> first | rfl | exact DirectX.resOk_getDisplayModes e a o ms

end SyrenRender

/-- When `FunctionResultOk` holds, the flag determines the grade class. -/
theorem functionResultOk_flag (r : FunctionResult) (h : FunctionResultOk r = true) :
    r.is_successfull = true ↔ r.result ≠ RESULT.FAIL := by
  obtain ⟨s, res, m⟩ := r
  simp only [FunctionResultOk] at h
  cases s <;> cases res <;> simp_all

/-- A recognised api token is never the NONE enumerator. -/
theorem lineApi_ne_none (l : List Char) (a : API) (h : lineApi l = some a) :
    a ≠ API.NONE := by
  unfold lineApi tokenAPI at h
  split_ifs at h <;> cases h <;> simp

namespace SyrenRender

theorem processLines_fail_iff (ls : List (List Char)) (config : API) :
    (processLines config ls).1.result = RESULT.FAIL ↔
      ∃ l ∈ ls, lineIsApi l = true ∧ lineApi l = none := by
  induction ls generalizing config with
  | nil => by_cases h : config = API.NONE <;> simp [processLines, h]
  | cons l t ih =>
    by_cases h1 : lineIsApi l = true
    · cases h2 : lineApi l with
      | some a => simp [processLines, h1, h2, ih]
      | none => simp [processLines, h1, h2]
    · simp [processLines, h1, ih, Bool.of_not_eq_true h1]

theorem processLines_nofail (ls : List (List Char)) (config : API)
    (h : ∀ l ∈ ls, lineIsApi l = true → (lineApi l).isSome = true) :
    (processLines config ls).2 = lastApi config ls ∧
    (processLines config ls).1 =
      (if lastApi config ls = API.NONE then
        ⟨true, RESULT.WSUCCESS, "missing graphics API entry in render.config."⟩
      else ⟨true, RESULT.SSUCCESS, "config file loaded successfully."⟩) := by
  induction ls generalizing config with
  | nil => by_cases hc : config = API.NONE <;> simp [processLines, lastApi, hc]
  | cons l t ih =>
    have ht : ∀ x ∈ t, lineIsApi x = true → (lineApi x).isSome = true :=
      fun x hx => h x (List.mem_cons_of_mem _ hx)
    by_cases h1 : lineIsApi l = true
    · have hs := h l (List.mem_cons_self _ _) h1
      obtain ⟨a, ha⟩ := Option.isSome_iff_exists.mp hs
      simp only [processLines, lastApi, h1, ha, if_true, Option.getD_some]
      exact ih a ht
    · simp only [processLines, lastApi]
      simp only [if_neg h1]
      exact ih config ht

theorem lastApi_ne_none (ls : List (List Char)) (config : API)
    (hc : config ≠ API.NONE) : lastApi config ls ≠ API.NONE := by
  induction ls generalizing config with
  | nil => exact hc
  | cons l t ih =>
    by_cases h1 : lineIsApi l = true
    · simp only [lastApi, h1, if_true]
      cases h2 : lineApi l with
      | some a => simpa [h2] using ih a (lineApi_ne_none l a h2)
      | none => simpa [h2] using ih config hc
    · simp only [lastApi]
      rw [if_neg h1]
      exact ih config hc

theorem lastApi_none_iff (ls : List (List Char))
    (h : ∀ l ∈ ls, lineIsApi l = true → (lineApi l).isSome = true) :
    lastApi API.NONE ls = API.NONE ↔ ∀ l ∈ ls, lineIsApi l = false := by
  induction ls with
  | nil => simp [lastApi]
  | cons l t ih =>
    have ht : ∀ x ∈ t, lineIsApi x = true → (lineApi x).isSome = true :=
      fun x hx => h x (List.mem_cons_of_mem _ hx)
    by_cases h1 : lineIsApi l = true
    · have hs := h l (List.mem_cons_self _ _) h1
      obtain ⟨a, ha⟩ := Option.isSome_iff_exists.mp hs
      have hne := lineApi_ne_none l a ha
      simp only [lastApi, h1, if_true, ha, Option.getD_some]
      constructor
      · intro hx
        exact absurd hx (lastApi_ne_none t a hne)
      · intro hx
        exact absurd h1 (by simp [hx l (List.mem_cons_self _ _)])
    · simp only [lastApi]
      rw [if_neg h1, ih ht]
      constructor
      · intro hx x hmem
        rcases List.mem_cons.mp hmem with rfl | hmem2
        · exact Bool.of_not_eq_true h1
        · exact hx x hmem2
      · intro hx x hmem
        exact hx x (List.mem_cons_of_mem _ hmem)

theorem lastApi_mem (ls : List (List Char)) (config : API)
    (h : ∀ l ∈ ls, lineIsApi l = true → (lineApi l).isSome = true) :
    lastApi config ls = config ∨
      ∃ l ∈ ls, lineIsApi l = true ∧ lineApi l = some (lastApi config ls) := by
  induction ls generalizing config with
  | nil => exact Or.inl rfl
  | cons l t ih =>
    have ht : ∀ x ∈ t, lineIsApi x = true → (lineApi x).isSome = true :=
      fun x hx => h x (List.mem_cons_of_mem _ hx)
    by_cases h1 : lineIsApi l = true
    · have hs := h l (List.mem_cons_self _ _) h1
      obtain ⟨a, ha⟩ := Option.isSome_iff_exists.mp hs
      simp only [lastApi, h1, if_true, ha, Option.getD_some]
      rcases ih a ht with h2 | ⟨x, hx, hx1, hx2⟩
      · exact Or.inr ⟨l, List.mem_cons_self _ _, h1, by rw [h2]; exact ha⟩
      · exact Or.inr ⟨x, List.mem_cons_of_mem _ hx, hx1, hx2⟩
    · simp only [lastApi]
      rw [if_neg h1]
      rcases ih config ht with h2 | ⟨x, hx, hx1, hx2⟩
      · exact Or.inl h2
      · exact Or.inr ⟨x, List.mem_cons_of_mem _ hx, hx1, hx2⟩

end SyrenRender

/-! The claim theorems. -/

namespace DirectX

@[simp] theorem initialiseRtvAndDsvDescriptorHeaps_swapChain (e : InitEnv)
    (st : DXState) :
    (initialiseRtvAndDsvDescriptorHeaps e st).2.swapChain = st.swapChain := by
  cases h1 : e.rtvHeapOk <;> cases h2 : e.dsvHeapOk <;>
    simp [initialiseRtvAndDsvDescriptorHeaps, h1, h2]

theorem initialiseSwapChain_sets (e : InitEnv) (n d : Nat) (st : DXState)
    (h : e.createSwapChainOk = true) :
    (initialiseSwapChain e n d st).2.swapChain = some (n, d) := by
  simp [initialiseSwapChain, h]

theorem initialise_succ_formula (e : InitEnv) (st : DXState) :
    (initialise e st).1.is_successfull =
      (e.createFactoryOk && (e.hwDeviceOk || (e.warpAdapterOk && e.warpDeviceOk)) &&
        e.createFenceOk && (e.queueOk && e.allocOk && e.listOk) &&
        e.createSwapChainOk && (e.rtvHeapOk && e.dsvHeapOk)) := by
  simp only [initialise]
  by_cases h1 : (initialiseDXGI e st).1.is_successfull = true
  case neg =>
    rw [if_neg h1]
    rw [initialiseDXGI_succ] at h1 ⊢
    simp [Bool.of_not_eq_true h1]
  rw [if_pos h1]
  rw [initialiseDXGI_succ] at h1
  by_cases h2 : (initialiseD3D12 e (initialiseDXGI e st).2).1.is_successfull = true
  case neg =>
    rw [if_neg h2]
    rw [initialiseD3D12_succ] at h2 ⊢
    simp [h1, Bool.of_not_eq_true h2]
  rw [if_pos h2]
  rw [initialiseD3D12_succ] at h2
  by_cases h3 : (initialiseFence e
      (initialiseD3D12 e (initialiseDXGI e st).2).2).1.is_successfull = true
  case neg =>
    rw [if_neg h3]
    rw [initialiseFence_succ] at h3 ⊢
    simp [h1, h2, Bool.of_not_eq_true h3]
  rw [if_pos h3]
  rw [initialiseFence_succ] at h3
  by_cases h4 : (initialiseCommandObjects e (cacheDescriptorSizes e
      (initialiseFence e
        (initialiseD3D12 e (initialiseDXGI e st).2).2).2)).1.is_successfull = true
  case neg =>
    rw [if_neg h4]
    rw [initialiseCommandObjects_succ] at h4 ⊢
    simp [h1, h2, h3, Bool.of_not_eq_true h4]
  rw [if_pos h4]
  rw [initialiseCommandObjects_succ] at h4
  by_cases h5 : (initialiseSwapChain e 60 1
      (initialiseCommandObjects e (cacheDescriptorSizes e
        (initialiseFence e
          (initialiseD3D12 e
            (initialiseDXGI e st).2).2).2)).2).1.is_successfull = true
  case neg =>
    rw [if_neg h5]
    rw [initialiseSwapChain_succ] at h5 ⊢
    simp [h1, h2, h3, h4, Bool.of_not_eq_true h5]
  rw [if_pos h5]
  rw [initialiseSwapChain_succ] at h5
  by_cases h6 : (initialiseRtvAndDsvDescriptorHeaps e
      (initialiseSwapChain e 60 1
        (initialiseCommandObjects e (cacheDescriptorSizes e
          (initialiseFence e
            (initialiseD3D12 e
              (initialiseDXGI e st).2).2).2)).2).2).1.is_successfull = true
  case neg =>
    rw [if_neg h6]
    rw [initialiseRtvAndDsvDescriptorHeaps_succ] at h6 ⊢
    simp [h1, h2, h3, h4, h5, Bool.of_not_eq_true h6]
  rw [if_pos h6]
  rw [initialiseRtvAndDsvDescriptorHeaps_succ] at h6
  simp [h1, h2, h3, h4, h5, h6]

end DirectX

/-- Claim C1: `DirectX::initialise` runs the steps in this fixed order —
DXGI factory, D3D12 device, fence, descriptor-size caching, command
queue/allocator/list, swap chain with refresh rate 60/1, RTV and DSV
descriptor heaps — returning the result of the first failing step with none of
the later steps performed, and returning a successful FunctionResult
exactly when every step succeeded. -/
theorem directx_initialise_sequence (e : DirectX.InitEnv) (st : DXState) :
    ((DirectX.initialise e st).1.is_successfull =
      (e.createFactoryOk && (e.hwDeviceOk || (e.warpAdapterOk && e.warpDeviceOk)) &&
        e.createFenceOk && (e.queueOk && e.allocOk && e.listOk) &&
        e.createSwapChainOk && (e.rtvHeapOk && e.dsvHeapOk))) ∧
    (e.createFactoryOk = false →
      DirectX.initialise e st = DirectX.initialiseDXGI e st) ∧
    (e.createFactoryOk = true →
      (e.hwDeviceOk || (e.warpAdapterOk && e.warpDeviceOk)) = false →
      DirectX.initialise e st =
        DirectX.initialiseD3D12 e (DirectX.initialiseDXGI e st).2) ∧
    (e.createFactoryOk = true →
      (e.hwDeviceOk || (e.warpAdapterOk && e.warpDeviceOk)) = true →
      e.createFenceOk = false →
      DirectX.initialise e st =
        DirectX.initialiseFence e
          (DirectX.initialiseD3D12 e (DirectX.initialiseDXGI e st).2).2) ∧
    (e.createFactoryOk = true →
      (e.hwDeviceOk || (e.warpAdapterOk && e.warpDeviceOk)) = true →
      e.createFenceOk = true →
      (e.queueOk && e.allocOk && e.listOk) = false →
      DirectX.initialise e st =
        DirectX.initialiseCommandObjects e (DirectX.cacheDescriptorSizes e
          (DirectX.initialiseFence e
            (DirectX.initialiseD3D12 e (DirectX.initialiseDXGI e st).2).2).2)) ∧
    (e.createFactoryOk = true →
      (e.hwDeviceOk || (e.warpAdapterOk && e.warpDeviceOk)) = true →
      e.createFenceOk = true →
      (e.queueOk && e.allocOk && e.listOk) = true →
      e.createSwapChainOk = false →
      DirectX.initialise e st =
        DirectX.initialiseSwapChain e 60 1
          (DirectX.initialiseCommandObjects e (DirectX.cacheDescriptorSizes e
            (DirectX.initialiseFence e
              (DirectX.initialiseD3D12 e
                (DirectX.initialiseDXGI e st).2).2).2)).2) ∧
    (e.createFactoryOk = true →
      (e.hwDeviceOk || (e.warpAdapterOk && e.warpDeviceOk)) = true →
      e.createFenceOk = true →
      (e.queueOk && e.allocOk && e.listOk) = true →
      e.createSwapChainOk = true →
      (e.rtvHeapOk && e.dsvHeapOk) = false →
      DirectX.initialise e st =
        DirectX.initialiseRtvAndDsvDescriptorHeaps e
          (DirectX.initialiseSwapChain e 60 1
            (DirectX.initialiseCommandObjects e (DirectX.cacheDescriptorSizes e
              (DirectX.initialiseFence e
                (DirectX.initialiseD3D12 e
                  (DirectX.initialiseDXGI e st).2).2).2)).2).2) ∧
    (e.createFactoryOk = true →
      (e.hwDeviceOk || (e.warpAdapterOk && e.warpDeviceOk)) = true →
      e.createFenceOk = true →
      (e.queueOk && e.allocOk && e.listOk) = true →
      e.createSwapChainOk = true →
      (e.rtvHeapOk && e.dsvHeapOk) = true →
      (DirectX.initialise e st).1.result = RESULT.SSUCCESS ∧
      (DirectX.initialise e st).2 =
        (DirectX.initialiseRtvAndDsvDescriptorHeaps e
          (DirectX.initialiseSwapChain e 60 1
            (DirectX.initialiseCommandObjects e (DirectX.cacheDescriptorSizes e
              (DirectX.initialiseFence e
                (DirectX.initialiseD3D12 e
                  (DirectX.initialiseDXGI e st).2).2).2)).2).2).2 ∧
      (DirectX.initialise e st).2.swapChain = some (60, 1)) := by
  refine ⟨DirectX.initialise_succ_formula e st, ?_, ?_, ?_, ?_, ?_, ?_, ?_⟩
  · intro h1
    simp only [DirectX.initialise]
    rw [if_neg (by rw [DirectX.initialiseDXGI_succ, h1]; exact Bool.false_ne_true)]
  · intro h1 h2
    simp only [DirectX.initialise]
    rw [if_pos (by rw [DirectX.initialiseDXGI_succ]; exact h1)]
    rw [if_neg (by rw [DirectX.initialiseD3D12_succ, h2]; exact Bool.false_ne_true)]
  · intro h1 h2 h3
    simp only [DirectX.initialise]
    rw [if_pos (by rw [DirectX.initialiseDXGI_succ]; exact h1)]
    rw [if_pos (by rw [DirectX.initialiseD3D12_succ]; exact h2)]
    rw [if_neg (by rw [DirectX.initialiseFence_succ, h3]; exact Bool.false_ne_true)]
  · intro h1 h2 h3 h4
    simp only [DirectX.initialise]
    rw [if_pos (by rw [DirectX.initialiseDXGI_succ]; exact h1)]
    rw [if_pos (by rw [DirectX.initialiseD3D12_succ]; exact h2)]
    rw [if_pos (by rw [DirectX.initialiseFence_succ]; exact h3)]
    rw [if_neg (by simp [DirectX.initialiseCommandObjects_succ, h4])]
  · intro h1 h2 h3 h4 h5
    simp only [DirectX.initialise]
    rw [if_pos (by rw [DirectX.initialiseDXGI_succ]; exact h1)]
    rw [if_pos (by rw [DirectX.initialiseD3D12_succ]; exact h2)]
    rw [if_pos (by rw [DirectX.initialiseFence_succ]; exact h3)]
    rw [if_pos (by rw [DirectX.initialiseCommandObjects_succ]; exact h4)]
    rw [if_neg (by simp [DirectX.initialiseSwapChain_succ, h5])]
  · intro h1 h2 h3 h4 h5 h6
    simp only [DirectX.initialise]
    rw [if_pos (by rw [DirectX.initialiseDXGI_succ]; exact h1)]
    rw [if_pos (by rw [DirectX.initialiseD3D12_succ]; exact h2)]
    rw [if_pos (by rw [DirectX.initialiseFence_succ]; exact h3)]
    rw [if_pos (by rw [DirectX.initialiseCommandObjects_succ]; exact h4)]
    rw [if_pos (by rw [DirectX.initialiseSwapChain_succ]; exact h5)]
    rw [if_neg (by simp [DirectX.initialiseRtvAndDsvDescriptorHeaps_succ, h6])]
  · intro h1 h2 h3 h4 h5 h6
    have hsteps : DirectX.initialise e st =
        (⟨true, RESULT.SSUCCESS,
          "Initialising DirectX. \n" ++
            (DirectX.initialiseDXGI e st).1.message ++ "\n" ++
            (DirectX.initialiseD3D12 e (DirectX.initialiseDXGI e st).2).1.message ++
            "\n" ++
            (DirectX.initialiseFence e
              (DirectX.initialiseD3D12 e
                (DirectX.initialiseDXGI e st).2).2).1.message ++ "\n" ++
            (DirectX.initialiseCommandObjects e (DirectX.cacheDescriptorSizes e
              (DirectX.initialiseFence e
                (DirectX.initialiseD3D12 e
                  (DirectX.initialiseDXGI e st).2).2).2)).1.message ++ "\n" ++
            (DirectX.initialiseSwapChain e 60 1
              (DirectX.initialiseCommandObjects e (DirectX.cacheDescriptorSizes e
                (DirectX.initialiseFence e
                  (DirectX.initialiseD3D12 e
                    (DirectX.initialiseDXGI e st).2).2).2)).2).1.message ++ "\n" ++
            (DirectX.initialiseRtvAndDsvDescriptorHeaps e
              (DirectX.initialiseSwapChain e 60 1
                (DirectX.initialiseCommandObjects e (DirectX.cacheDescriptorSizes e
                  (DirectX.initialiseFence e
                    (DirectX.initialiseD3D12 e
                      (DirectX.initialiseDXGI e st).2).2).2)).2).2).1.message ++
            "\n" ++ "Initialising DirectX was successful."⟩,
          (DirectX.initialiseRtvAndDsvDescriptorHeaps e
            (DirectX.initialiseSwapChain e 60 1
              (DirectX.initialiseCommandObjects e (DirectX.cacheDescriptorSizes e
                (DirectX.initialiseFence e
                  (DirectX.initialiseD3D12 e
                    (DirectX.initialiseDXGI e st).2).2).2)).2).2).2) := by
      simp only [DirectX.initialise]
      rw [if_pos (by rw [DirectX.initialiseDXGI_succ]; exact h1)]
      rw [if_pos (by rw [DirectX.initialiseD3D12_succ]; exact h2)]
      rw [if_pos (by rw [DirectX.initialiseFence_succ]; exact h3)]
      rw [if_pos (by rw [DirectX.initialiseCommandObjects_succ]; exact h4)]
      rw [if_pos (by rw [DirectX.initialiseSwapChain_succ]; exact h5)]
      rw [if_pos (by rw [DirectX.initialiseRtvAndDsvDescriptorHeaps_succ]; exact h6)]
    rw [hsteps]
    refine ⟨rfl, rfl, ?_⟩
    rw [DirectX.initialiseRtvAndDsvDescriptorHeaps_swapChain]
    exact DirectX.initialiseSwapChain_sets e 60 1 _ h5

/-- Witness for directx_initialise_sequence: the factory-failure path
returns the result of the DXGI step, and the all-success path creates the swap
chain with refresh rate 60/1. -/
theorem directx_initialise_sequence_witness :
    DirectX.initialise
        ⟨false, "boom", true, true, true, true, 1, 2, 3, true, true, true,
          true, true, true⟩ (DXState.construct 0) =
      DirectX.initialiseDXGI
        ⟨false, "boom", true, true, true, true, 1, 2, 3, true, true, true,
          true, true, true⟩ (DXState.construct 0) ∧
    (DirectX.initialise
        ⟨true, "", true, true, true, true, 1, 2, 3, true, true, true,
          true, true, true⟩ (DXState.construct 0)).2.swapChain = some (60, 1) :=
  ⟨(directx_initialise_sequence
      ⟨false, "boom", true, true, true, true, 1, 2, 3, true, true, true,
        true, true, true⟩ (DXState.construct 0)).2.1 rfl,
    ((directx_initialise_sequence
      ⟨true, "", true, true, true, true, 1, 2, 3, true, true, true,
        true, true, true⟩ (DXState.construct 0)).2.2.2.2.2.2.2
      rfl rfl rfl rfl rfl rfl).2.2⟩

/-- Claim C2 (amended): in `DirectX::render` the command-allocator reset,
command-list reset, command-list close and swap-chain present are
error-checked — render returns a successful FunctionResult exactly when
those four calls succeed — but the result of the final command-queue flush
is discarded, so the result of render does not depend on the flush environment
at all. -/
theorem render_error_checks (e : DirectX.RenderEnv) (st : DXState) :
    (DirectX.render e st).1.is_successfull =
      (e.allocResetOk && e.listResetOk && e.closeOk && e.presentOk) :=
  DirectX.render_succ_iff e st

/-- Claim C2 as stated is refuted at this input: with the allocator reset,
list reset, close and present all succeeding and the final flush's Signal
call failing, the flush performed inside render (at the post-present state)
returns an unsuccessful result, yet render returns a successful one. -/
theorem render_flush_unchecked_cex :
    (DirectX.flushCommandQueue ⟨false, 0, true⟩
        { DXState.construct 0 with mCurrBackBuffer := 1 }).1.is_successfull = false ∧
    (DirectX.render ⟨true, true, true, true, ⟨false, 0, true⟩⟩
        (DXState.construct 0)).1.is_successfull = true :=
  ⟨rfl, rfl⟩

/-- Witness for render_error_checks at a concrete environment and state. -/
theorem render_error_checks_witness :
    (DirectX.render ⟨true, true, false, true, ⟨true, 0, true⟩⟩
        (DXState.construct 0)).1.is_successfull =
      (true && true && false && true) :=
  render_error_checks ⟨true, true, false, true, ⟨true, 0, true⟩⟩ (DXState.construct 0)

/-- Claim C3: `select_api` returns a DirectX backend instance for every
value of the API enumeration and every window handle, and after
`SyrenRender::initialise` the held backend is the DirectX backend
regardless of the configured API. -/
theorem select_api_always_directx :
    (∀ (p_api : API) (phMainWnd : Nat),
        SyrenRender.select_api p_api phMainWnd =
          Backend.directx phMainWnd (DXState.construct phMainWnd)) ∧
    (∀ (opened : Bool) (err : String) (ls : List (List Char))
        (e : DirectX.InitEnv) (phMainWnd : Nat) (st : SRState),
        (SyrenRender.initialise opened err ls e phMainWnd st).2.m_API =
          some (Backend.directx phMainWnd
            (DirectX.initialise e (DXState.construct phMainWnd)).2)) := by
  constructor
  · intro p_api phMainWnd
    rfl
  · intro opened err ls e phMainWnd st
    simp only [SyrenRender.initialise, SyrenRender.select_api, Backend.initialise]
    split_ifs <;> rfl

/-- Claim C9: `SyrenRender::initialise` sets `m_is_initialised` to TRUE on
every path — including when config loading fails, when the config has no
api entry, and when the initialise of the backend reports failure — so
`isInitialised()` returns true afterwards in every case. -/
theorem initialise_always_marks_initialised (opened : Bool) (err : String)
    (ls : List (List Char)) (e : DirectX.InitEnv) (phMainWnd : Nat) (st : SRState) :
    (SyrenRender.initialise opened err ls e phMainWnd st).2.m_is_initialised = true ∧
    SyrenRender.isInitialised
      (SyrenRender.initialise opened err ls e phMainWnd st).2 = true := by
  simp only [SyrenRender.initialise, SyrenRender.isInitialised,
    SyrenRender.select_api, Backend.initialise]
  split_ifs <;> exact ⟨rfl, rfl⟩

/-- Claim C5: every `flushCommandQueue` call increments `mCurrentFence` by
exactly one; a successful flush implies the completed value of the fence has
reached `mCurrentFence`; and across every sequence of operations on a
DirectX instance `mCurrentFence` never decreases. -/
theorem fence_synchronisation :
    (∀ (e : DirectX.FlushEnv) (st : DXState),
        (DirectX.flushCommandQueue e st).2.mCurrentFence = st.mCurrentFence + 1) ∧
    (∀ (e : DirectX.FlushEnv) (st : DXState),
        (DirectX.flushCommandQueue e st).1.is_successfull = true →
          (DirectX.flushCommandQueue e st).2.mCurrentFence ≤
            (DirectX.flushCommandQueue e st).2.fenceCompleted) ∧
    (∀ (ops : List DXOp) (st : DXState),
        st.mCurrentFence ≤ (runOps ops st).mCurrentFence) :=
  ⟨DirectX.flushCommandQueue_fence, DirectX.flushCommandQueue_succ_reached,
    runOps_fence_mono⟩

/-- Witness for fence_synchronisation at a concrete flush environment and
state. -/
theorem fence_synchronisation_witness :
    (DirectX.flushCommandQueue ⟨true, 5, true⟩ (DXState.construct 0)).2.mCurrentFence =
      (DXState.construct 0).mCurrentFence + 1 ∧
    (DirectX.flushCommandQueue ⟨true, 5, true⟩ (DXState.construct 0)).2.mCurrentFence ≤
      (DirectX.flushCommandQueue ⟨true, 5, true⟩ (DXState.construct 0)).2.fenceCompleted ∧
    (DXState.construct 0).mCurrentFence ≤
      (runOps [DXOp.flushOp ⟨true, 5, true⟩] (DXState.construct 0)).mCurrentFence :=
  ⟨fence_synchronisation.1 ⟨true, 5, true⟩ (DXState.construct 0),
    fence_synchronisation.2.1 ⟨true, 5, true⟩ (DXState.construct 0) rfl,
    fence_synchronisation.2.2 [DXOp.flushOp ⟨true, 5, true⟩] (DXState.construct 0)⟩

/-- Claim C6: `SwapChainBufferCount` is 2; the invariant
`mCurrBackBuffer < SwapChainBufferCount` is preserved by every operation
and holds for every sequence of operations run from a freshly constructed
instance; every successful render advances `mCurrBackBuffer` by one modulo
`SwapChainBufferCount`; and every successful onResize resets it to 0. -/
theorem backbuffer_cycling :
    SwapChainBufferCount = 2 ∧
    (∀ (op : DXOp) (st : DXState), st.mCurrBackBuffer < SwapChainBufferCount →
        (op.run st).2.mCurrBackBuffer < SwapChainBufferCount) ∧
    (∀ (ops : List DXOp) (phMainWnd : Nat),
        (runOps ops (DXState.construct phMainWnd)).mCurrBackBuffer <
          SwapChainBufferCount) ∧
    (∀ (e : DirectX.RenderEnv) (st : DXState),
        (DirectX.render e st).1.is_successfull = true →
          (DirectX.render e st).2.mCurrBackBuffer =
            (st.mCurrBackBuffer + 1) % SwapChainBufferCount) ∧
    (∀ (e : DirectX.ResizeEnv) (st : DXState),
        (DirectX.onResize e st).1.is_successfull = true →
          (DirectX.onResize e st).2.mCurrBackBuffer = 0) :=
  ⟨rfl, DXOp.run_backbuffer_lt,
    fun ops phMainWnd =>
      runOps_backbuffer_lt ops (DXState.construct phMainWnd)
        (show (0 : Nat) < 2 by omega),
    DirectX.render_succ_backbuffer, DirectX.onResize_succ_backbuffer⟩

/-- Witness for backbuffer_cycling at concrete environments in which render
and onResize both succeed. -/
theorem backbuffer_cycling_witness :
    (DirectX.render ⟨true, true, true, true, ⟨true, 9, true⟩⟩
        (DXState.construct 0)).2.mCurrBackBuffer =
      ((DXState.construct 0).mCurrBackBuffer + 1) % SwapChainBufferCount ∧
    (DirectX.onResize ⟨⟨true, 9, true⟩, true, true, true, true, true, true,
        ⟨true, 9, true⟩⟩ (DXState.construct 3)).2.mCurrBackBuffer = 0 ∧
    (DXOp.updateOp.run (DXState.construct 0)).2.mCurrBackBuffer <
      SwapChainBufferCount :=
  ⟨backbuffer_cycling.2.2.2.1 ⟨true, true, true, true, ⟨true, 9, true⟩⟩
      (DXState.construct 0) rfl,
    backbuffer_cycling.2.2.2.2 ⟨⟨true, 9, true⟩, true, true, true, true, true,
      true, ⟨true, 9, true⟩⟩ (DXState.construct 3) rfl,
    backbuffer_cycling.2.1 DXOp.updateOp (DXState.construct 0) (by decide)⟩

/-- Claim C7: each of the three facade enumeration entry points returns the
fixed unsuccessful FAIL result with message "Graphics API has not been
initialised." and leaves the list of the caller unchanged when the renderer has
not been initialised, and delegates verbatim to the corresponding backend
operation when it has. -/
theorem facade_guards (eA : DirectX.AdaptersEnv) (eO : DirectX.OutputsEnv)
    (eM : DirectX.ModesEnv) (st : SRState) (i a o : Nat)
    (adapters : List GraphicsAdapter) (outputs : List GraphicsOutput)
    (modes : List DisplayMode) :
    (st.m_is_initialised = false →
      SyrenRender.getAdapters eA st adapters =
        (⟨false, RESULT.FAIL, "Graphics API has not been initialised."⟩, adapters) ∧
      SyrenRender.getOutputs eO i st outputs =
        (⟨false, RESULT.FAIL, "Graphics API has not been initialised."⟩, outputs) ∧
      SyrenRender.getDisplayModes eM a o st modes =
        (⟨false, RESULT.FAIL, "Graphics API has not been initialised."⟩, modes)) ∧
    (st.m_is_initialised = true →
      SyrenRender.getAdapters eA st adapters = DirectX.getAdapters eA adapters ∧
      SyrenRender.getOutputs eO i st outputs = DirectX.getOutputs eO i outputs ∧
      SyrenRender.getDisplayModes eM a o st modes =
        DirectX.getDisplayModes eM a o modes) := by
  constructor
  · intro h
    refine ⟨?_, ?_, ?_⟩ <;>
      · simp only [SyrenRender.getAdapters, SyrenRender.getOutputs,
          SyrenRender.getDisplayModes]
        rw [if_neg (by simp [h])]
  · intro h
    refine ⟨?_, ?_, ?_⟩ <;>
      · simp only [SyrenRender.getAdapters, SyrenRender.getOutputs,
          SyrenRender.getDisplayModes]
        rw [if_pos h]

/-- Witness for facade_guards: the fresh renderer refuses adapter
enumeration, and after flipping the flag the call delegates. -/
theorem facade_guards_witness :
    SyrenRender.getAdapters ⟨[]⟩ SRState.construct [] =
      (⟨false, RESULT.FAIL, "Graphics API has not been initialised."⟩, []) ∧
    SyrenRender.getAdapters ⟨[]⟩
        { SRState.construct with m_is_initialised := true } [] =
      DirectX.getAdapters ⟨[]⟩ [] :=
  ⟨((facade_guards ⟨[]⟩ ⟨0, []⟩ ⟨0, 0, []⟩ SRState.construct 0 0 0
      [] [] []).1 rfl).1,
    ((facade_guards ⟨[]⟩ ⟨0, []⟩ ⟨0, 0, []⟩
      { SRState.construct with m_is_initialised := true } 0 0 0
      [] [] []).2 rfl).1⟩

/-- Claim C10: when the output lookup fails, `DirectX::getDisplayModes`
returns that same unsuccessful result and appends nothing to the
display-mode list of the caller. -/
theorem getDisplayModes_atomic (e : DirectX.ModesEnv) (a o : Nat)
    (ms : List DisplayMode)
    (h : (DirectX.getOutput e a o).is_successfull = false) :
    DirectX.getDisplayModes e a o ms = (DirectX.getOutput e a o, ms) := by
  simp only [DirectX.getDisplayModes]
  rw [if_neg (by simp [h])]

/-- Witness for getDisplayModes_atomic at an environment with no adapters. -/
theorem getDisplayModes_atomic_witness :
    (DirectX.getOutput ⟨0, 0, []⟩ 0 0).is_successfull = false ∧
    DirectX.getDisplayModes ⟨0, 0, []⟩ 0 0 [] =
      (DirectX.getOutput ⟨0, 0, []⟩ 0 0, []) :=
  ⟨rfl, getDisplayModes_atomic ⟨0, 0, []⟩ 0 0 [] rfl⟩

/-- Claim C8: every FunctionResult returned by any operation of the library
pairs its Boolean flag with its result grade — `is_successfull` is true
exactly when `result` is not FAIL (successful results carry SSUCCESS or
WSUCCESS, failing results carry FAIL). -/
theorem functionResult_pairing :
    (∀ r, FunctionResultOk r = true →
        (r.is_successfull = true ↔ r.result ≠ RESULT.FAIL)) ∧
    (∀ e st, FunctionResultOk (DirectX.initialiseDXGI e st).1 = true) ∧
    (∀ e st, FunctionResultOk (DirectX.initialiseD3D12 e st).1 = true) ∧
    (∀ e st, FunctionResultOk (DirectX.initialiseFence e st).1 = true) ∧
    (∀ e st, FunctionResultOk (DirectX.initialiseCommandObjects e st).1 = true) ∧
    (∀ e n d st, FunctionResultOk (DirectX.initialiseSwapChain e n d st).1 = true) ∧
    (∀ e st,
        FunctionResultOk (DirectX.initialiseRtvAndDsvDescriptorHeaps e st).1 = true) ∧
    (∀ e st, FunctionResultOk (DirectX.initialise e st).1 = true) ∧
    (∀ e st, FunctionResultOk (DirectX.flushCommandQueue e st).1 = true) ∧
    (∀ e st, FunctionResultOk (DirectX.render e st).1 = true) ∧
    (∀ e st, FunctionResultOk (DirectX.onResize e st).1 = true) ∧
    FunctionResultOk DirectX.update = true ∧
    FunctionResultOk DirectX.destroy = true ∧
    (∀ e, FunctionResultOk (DirectX.checkMultisampling e) = true) ∧
    (∀ e i, FunctionResultOk (DirectX.getAdapter e i) = true) ∧
    (∀ e a o, FunctionResultOk (DirectX.getOutput e a o) = true) ∧
    (∀ e ad, FunctionResultOk (DirectX.getAdapters e ad).1 = true) ∧
    (∀ e i outs, FunctionResultOk (DirectX.getOutputs e i outs).1 = true) ∧
    (∀ e a o ms, FunctionResultOk (DirectX.getDisplayModes e a o ms).1 = true) ∧
    (∀ opened err ls cfg,
        FunctionResultOk (SyrenRender.loadConfig opened err ls cfg).1 = true) ∧
    (∀ opened err ls e hwnd st,
        FunctionResultOk (SyrenRender.initialise opened err ls e hwnd st).1 = true) ∧
    (∀ e b, FunctionResultOk (SyrenRender.onResize e b).1 = true) ∧
    (∀ e b, FunctionResultOk (SyrenRender.draw e b).1 = true) ∧
    (∀ e st ad, FunctionResultOk (SyrenRender.getAdapters e st ad).1 = true) ∧
    (∀ e i st outs, FunctionResultOk (SyrenRender.getOutputs e i st outs).1 = true) ∧
    (∀ e a o st ms,
        FunctionResultOk (SyrenRender.getDisplayModes e a o st ms).1 = true) :=
  ⟨functionResultOk_flag,
    DirectX.resOk_initialiseDXGI,
    DirectX.resOk_initialiseD3D12,
    DirectX.resOk_initialiseFence,
    DirectX.resOk_initialiseCommandObjects,
    DirectX.resOk_initialiseSwapChain,
    DirectX.resOk_initialiseRtvAndDsvDescriptorHeaps,
    DirectX.resOk_initialise,
    DirectX.resOk_flushCommandQueue,
    DirectX.resOk_render,
    DirectX.resOk_onResize,
    rfl, rfl,
    DirectX.resOk_checkMultisampling,
    DirectX.resOk_getAdapter,
    DirectX.resOk_getOutput,
    fun e ad => rfl,
    fun e i outs => rfl,
    DirectX.resOk_getDisplayModes,
    fun opened err ls cfg => SyrenRender.resOk_loadConfig opened err ls cfg,
    SyrenRender.sr_resOk_initialise,
    SyrenRender.sr_resOk_onResize,
    SyrenRender.resOk_draw,
    SyrenRender.resOk_getAdapters,
    SyrenRender.resOk_getOutputs,
    SyrenRender.sr_resOk_getDisplayModes⟩

/-- Witness for functionResult_pairing at a concrete result value. -/
theorem functionResult_pairing_witness :
    (FunctionResult.mk true RESULT.SSUCCESS "ok").is_successfull = true ↔
      (FunctionResult.mk true RESULT.SSUCCESS "ok").result ≠ RESULT.FAIL :=
  functionResult_pairing.1 (FunctionResult.mk true RESULT.SSUCCESS "ok") rfl

/-- Claim C4: with the GraphicsAPI of the config entering as NONE (its value
from the SyrenRender constructor), `loadConfig` returns an unsuccessful
FAIL exactly when the file cannot be opened or some line containing "api"
carries an unrecognised value; a WSUCCESS exactly when the file opens but
has no "api" line, leaving the config at NONE; and an SSUCCESS exactly
when a recognised api value was read, in which case the config is set to
the enumerator of a recognised api line; moreover the flag of the result
always matches its grade. -/
theorem loadConfig_classification (opened : Bool) (err : String)
    (ls : List (List Char)) :
    ((SyrenRender.loadConfig opened err ls API.NONE).1.result = RESULT.FAIL ↔
      opened = false ∨ ∃ l ∈ ls, lineIsApi l = true ∧ lineApi l = none) ∧
    ((SyrenRender.loadConfig opened err ls API.NONE).1.result = RESULT.WSUCCESS ↔
      opened = true ∧ ∀ l ∈ ls, lineIsApi l = false) ∧
    ((SyrenRender.loadConfig opened err ls API.NONE).1.result = RESULT.WSUCCESS →
      (SyrenRender.loadConfig opened err ls API.NONE).2 = API.NONE) ∧
    ((SyrenRender.loadConfig opened err ls API.NONE).1.result = RESULT.SSUCCESS ↔
      opened = true ∧ (∃ l ∈ ls, lineIsApi l = true) ∧
        ∀ l ∈ ls, lineIsApi l = true → (lineApi l).isSome = true) ∧
    ((SyrenRender.loadConfig opened err ls API.NONE).1.result = RESULT.SSUCCESS →
      ∃ l ∈ ls, lineIsApi l = true ∧
        lineApi l = some (SyrenRender.loadConfig opened err ls API.NONE).2) ∧
    (∀ cfg, FunctionResultOk (SyrenRender.loadConfig opened err ls cfg).1 = true) := by
  cases opened with
  | false =>
    refine ⟨?_, ?_, ?_, ?_, ?_,
      fun cfg => SyrenRender.resOk_loadConfig false err ls cfg⟩ <;>
      simp [SyrenRender.loadConfig]
  | true =>
    by_cases hbad : ∃ l ∈ ls, lineIsApi l = true ∧ lineApi l = none
    · have hfail : (SyrenRender.loadConfig true err ls API.NONE).1.result =
          RESULT.FAIL :=
        (SyrenRender.processLines_fail_iff ls API.NONE).mpr hbad
      obtain ⟨lb, hmb, hapib, hnoneb⟩ := hbad
      refine ⟨?_, ?_, ?_, ?_, ?_,
        fun cfg => SyrenRender.resOk_loadConfig true err ls cfg⟩
      · exact ⟨fun _ => Or.inr ⟨lb, hmb, hapib, hnoneb⟩, fun _ => hfail⟩
      · constructor
        · intro hw
          rw [hfail] at hw
          exact RESULT.noConfusion hw
        · rintro ⟨_, hall⟩
          exact absurd (hall lb hmb) (by simp [hapib])
      · intro hw
        rw [hfail] at hw
        exact RESULT.noConfusion hw
      · constructor
        · intro hs
          rw [hfail] at hs
          exact RESULT.noConfusion hs
        · rintro ⟨_, _, hall⟩
          have hx := hall lb hmb hapib
          rw [hnoneb] at hx
          exact absurd hx (by simp)
      · intro hs
        rw [hfail] at hs
        exact RESULT.noConfusion hs
    · have hgood : ∀ l ∈ ls, lineIsApi l = true → (lineApi l).isSome = true := by
        intro l hm hapi
        cases h2 : lineApi l with
        | none => exact absurd ⟨l, hm, hapi, h2⟩ hbad
        | some a => rfl
      obtain ⟨hstate, hres⟩ := SyrenRender.processLines_nofail ls API.NONE hgood
      have hstate' : (SyrenRender.loadConfig true err ls API.NONE).2 =
          lastApi API.NONE ls := hstate
      by_cases hnone : lastApi API.NONE ls = API.NONE
      · have hres' : (SyrenRender.loadConfig true err ls API.NONE).1 =
            ⟨true, RESULT.WSUCCESS, "missing graphics API entry in render.config."⟩ := by
          rw [if_pos hnone] at hres
          exact hres
        refine ⟨?_, ?_, ?_, ?_, ?_,
          fun cfg => SyrenRender.resOk_loadConfig true err ls cfg⟩
        · constructor
          · intro hf
            rw [hres'] at hf
            exact RESULT.noConfusion hf
          · rintro (hop | hbad2)
            · exact Bool.noConfusion hop
            · exact absurd hbad2 hbad
        · constructor
          · intro _
            exact ⟨rfl, (SyrenRender.lastApi_none_iff ls hgood).mp hnone⟩
          · intro _
            rw [hres']
        · intro _
          rw [hstate']
          exact hnone
        · constructor
          · intro hs
            rw [hres'] at hs
            exact RESULT.noConfusion hs
          · rintro ⟨_, ⟨l, hm, hapi⟩, _⟩
            have hx := (SyrenRender.lastApi_none_iff ls hgood).mp hnone l hm
            rw [hapi] at hx
            exact Bool.noConfusion hx
        · intro hs
          rw [hres'] at hs
          exact RESULT.noConfusion hs
      · have hres' : (SyrenRender.loadConfig true err ls API.NONE).1 =
            ⟨true, RESULT.SSUCCESS, "config file loaded successfully."⟩ := by
          rw [if_neg hnone] at hres
          exact hres
        have hex : ∃ l ∈ ls, lineIsApi l = true := by
          by_contra hcon
          push_neg at hcon
          exact hnone ((SyrenRender.lastApi_none_iff ls hgood).mpr
            (fun l hm => Bool.of_not_eq_true (hcon l hm)))
        refine ⟨?_, ?_, ?_, ?_, ?_,
          fun cfg => SyrenRender.resOk_loadConfig true err ls cfg⟩
        · constructor
          · intro hf
            rw [hres'] at hf
            exact RESULT.noConfusion hf
          · rintro (hop | hbad2)
            · exact Bool.noConfusion hop
            · exact absurd hbad2 hbad
        · constructor
          · intro hw
            rw [hres'] at hw
            exact RESULT.noConfusion hw
          · rintro ⟨_, hall⟩
            exact absurd ((SyrenRender.lastApi_none_iff ls hgood).mpr hall) hnone
        · intro hw
          rw [hres'] at hw
          exact RESULT.noConfusion hw
        · exact ⟨fun _ => ⟨rfl, hex, hgood⟩, fun _ => by rw [hres']⟩
        · intro _
          rcases SyrenRender.lastApi_mem ls API.NONE hgood with heq | ⟨l, hm, hapi, hsome⟩
          · exact absurd heq hnone
          · refine ⟨l, hm, hapi, ?_⟩
            rw [hstate']
            exact hsome

/-- Witness for loadConfig_classification: a one-line file selecting
directx yields a strong success whose recognised line carries the final
enumerator, and an unopened file yields FAIL. -/
theorem loadConfig_classification_witness :
    (∃ l ∈ ["api: directx".toList], lineIsApi l = true ∧
        lineApi l =
          some (SyrenRender.loadConfig true "" ["api: directx".toList] API.NONE).2) ∧
    (SyrenRender.loadConfig false "e" [] API.NONE).1.result = RESULT.FAIL :=
  ⟨(loadConfig_classification true "" ["api: directx".toList]).2.2.2.2.1 (by decide),
    (loadConfig_classification false "e" []).1.mpr (Or.inl rfl)⟩

end SyrenEngine
